import Mathlib

/-!
Verification of the job-board application server (src/server.js, src/db.js).

We shallowly embed the request handlers as pure Lean functions over an
explicit database state.  JavaScript-specific behaviours are modelled
faithfully: `parseInt(·, 10)` semantics, string falsiness (`!s` is true for
`undefined`/`""`), `String.prototype.trim`, and the regex replacement
`replace(/\s+/g, '-')`.  The filesystem of uploaded resumes is a list of
paths; `fs.unlinkSync` removes a path.  The MySQL pool is modelled as lists
of rows; `bcrypt.hash` / `bcrypt.compare` are abstract function parameters.
-/

namespace JobApp

/-- Whitespace class of JavaScript regex `\s` / `String.trim`, restricted to
the ASCII characters that can appear in the strings we reason about. -/
def jsIsSpace (c : Char) : Bool :=
  c = ' ' || c = '\t' || c = '\n' || c = '\r' || c = '\x0b' || c = '\x0c'

/-- A request-body field: `none` models an absent (`undefined`) field.
JavaScript truthiness for strings: `!x` is true iff `x` is `undefined`,
`null` or the empty string. -/
def jsFalsy : Option String → Bool
  | none => true
  | some s => s = ""

/-- JavaScript `String.prototype.trim`: strip leading and trailing
whitespace. -/
def jsTrim (s : String) : String :=
  String.mk ((s.data.dropWhile jsIsSpace).reverse.dropWhile jsIsSpace |>.reverse)

/-- Value of a list of decimal digit characters, most significant first. -/
def digitsVal (ds : List Char) : Nat :=
  ds.foldl (fun acc c => acc * 10 + (c.toNat - '0'.toNat)) 0

/-- JavaScript `parseInt(s, 10)`: skip leading whitespace, read an optional
sign, then the longest prefix of decimal digits; `none` models `NaN` (no
digit found). -/
def parseIntJS (s : String) : Option Int :=
  let cs := s.data.dropWhile jsIsSpace
  let signAndRest : Int × List Char :=
    match cs with
    | '-' :: rest => (-1, rest)
    | '+' :: rest => (1, rest)
    | _ => (1, cs)
  let ds := signAndRest.2.takeWhile Char.isDigit
  if ds.isEmpty then none
  else some (signAndRest.1 * (digitsVal ds : Int))

/-- Core of `replace(/\s+/g, '-')`: the flag records whether the previous
character was part of a whitespace run (so a maximal run contributes a
single dash). -/
def collapseWsGo : Bool → List Char → List Char
  | _, [] => []
  | prevWs, c :: rest =>
    if jsIsSpace c then
      if prevWs then collapseWsGo true rest
      else '-' :: collapseWsGo true rest
    else c :: collapseWsGo false rest

/-- `originalname.replace(/\s+/g, '-')` from the multer storage config. -/
def jsCollapseWs (s : String) : String :=
  String.mk (collapseWsGo false s.data)

/-- Stored filename built by the multer `storage.filename` callback:
`Date.now()` timestamp, a dash, then the whitespace-collapsed original
name. -/
def multerFilename (ts : Nat) (originalname : String) : String :=
  toString ts ++ "-" ++ jsCollapseWs originalname

/-- Filename the spec's words describe when read literally: the timestamp
prefix followed by the original name with all whitespace characters
removed (stripped) rather than replaced.  Used only to compare against
`multerFilename`. -/
def specStrippedFilename (ts : Nat) (originalname : String) : String :=
  toString ts ++ "-" ++ String.mk (originalname.data.filter (fun c => !jsIsSpace c))

/-- A row of the `users` table. -/
structure User where
  id : Nat
  email : String
  password_hash : String
  name : String
  role : String
deriving DecidableEq, Repr

/-- A row of the `jobs` table.  The deadline is a timestamp (milliseconds),
already converted from its DATETIME column. -/
structure Job where
  id : Int
  title : String
  company : String
  description : String
  deadline : Int
deriving DecidableEq, Repr

/-- A row of the `applications` table. -/
structure Application where
  id : Nat
  job_id : Int
  user_id : Option Nat
  name : String
  email : String
  phone : String
  cover_letter : String
  resume_path : String
deriving DecidableEq, Repr

/-- The relational store reachable through the MySQL pool. -/
structure Db where
  users : List User
  jobs : List Job
  applications : List Application
  nextUserId : Nat
  nextAppId : Nat
deriving DecidableEq, Repr

/-- A file stored by multer before the apply handler body runs. -/
structure UploadedFile where
  path : String
  filename : String
deriving DecidableEq, Repr

/-- The `express-session` payload relevant to this server: `req.session.userId`
and `req.session.userRole`. -/
structure Session where
  userId : Option Nat
  userRole : Option String
deriving DecidableEq, Repr

/-- Request data reaching the apply handler: the `:id` route parameter (a
string), the session, the multipart text fields and the uploaded file. -/
structure ApplyReq where
  paramId : String
  sessionUserId : Option Nat
  name : Option String
  email : Option String
  phone : Option String
  coverLetter : Option String
  file : Option UploadedFile
deriving DecidableEq, Repr

/-- Outcome of the apply handler: HTTP status, error message if any, the
database afterwards, and the upload directory afterwards. -/
structure ApplyResult where
  status : Nat
  error : Option String
  db : Db
  fs : List String
deriving DecidableEq, Repr

/-- Model of `if (req.file) fs.unlinkSync(req.file.path)`.  A filesystem
holds each path at most once, so deletion removes every occurrence. -/
def unlinkIfFile (fs : List String) (file : Option UploadedFile) : List String :=
  match file with
  | some f => fs.filter (fun p => p ≠ f.path)
  | none => fs

/-- Handler of `POST /api/jobs/:id/apply` (server.js:350-408).  `fs0` is the
upload directory after multer stored `req.file` (when present);
`insertFails` injects a failure of the `INSERT INTO applications` query,
which the handler catches, cleaning up the file and forwarding a 500.
The source guard `if (!jobId || isNaN(jobId))` rejects exactly the values
`NaN` (parse returned no digits, our `none`) and `0` (the only falsy
number a successful `parseInt` can return here). -/
def applyHandler (db : Db) (now : Int) (req : ApplyReq) (insertFails : Bool)
    (fs0 : List String) : ApplyResult :=
  match parseIntJS req.paramId with
  | none => ⟨400, some "Invalid job ID", db, unlinkIfFile fs0 req.file⟩
  | some jobId =>
    if jobId = 0 then
      ⟨400, some "Invalid job ID", db, unlinkIfFile fs0 req.file⟩
    else
      match req.sessionUserId with
      | none => ⟨401, some "User session not found", db, unlinkIfFile fs0 req.file⟩
      | some userId =>
        match db.jobs.find? (fun j => j.id == jobId) with
        | none => ⟨404, some "Job not found", db, unlinkIfFile fs0 req.file⟩
        | some job =>
          if job.deadline < now then
            ⟨400, some "Application deadline has passed", db, unlinkIfFile fs0 req.file⟩
          else if jsFalsy req.name || jsFalsy req.email || jsFalsy req.phone ||
              jsFalsy req.coverLetter then
            ⟨400, some "Missing required fields", db, unlinkIfFile fs0 req.file⟩
          else
            match req.file with
            | none => ⟨400, some "Resume file is required", db, fs0⟩
            | some f =>
              if insertFails then
                ⟨500, some "Internal server error", db, unlinkIfFile fs0 req.file⟩
              else
                let app : Application :=
                  { id := db.nextAppId
                    job_id := jobId
                    user_id := some userId
                    name := jsTrim ((req.name).getD "")
                    email := jsTrim ((req.email).getD "")
                    phone := jsTrim ((req.phone).getD "")
                    cover_letter := jsTrim ((req.coverLetter).getD "")
                    resume_path := f.filename }
                ⟨201, none,
                  { db with applications := db.applications ++ [app],
                            nextAppId := db.nextAppId + 1 },
                  fs0⟩

/-- Public user fields returned by auth endpoints (`SELECT id, email, name,
role`): the structure has no password-hash field, mirroring that the hash is
never selected into a response. -/
structure PubUser where
  id : Nat
  email : String
  name : String
  role : String
deriving DecidableEq, Repr

/-- Public projection of a stored user row. -/
def pubUser (u : User) : PubUser :=
  { id := u.id, email := u.email, name := u.name, role := u.role }

/-- Outcome of an auth endpoint: HTTP status, error message, user payload on
success, the database afterwards, and the session afterwards (`none` when the
session was destroyed or was never established). -/
structure AuthResult where
  status : Nat
  error : Option String
  userPayload : Option PubUser
  db : Db
  session : Option Session
deriving DecidableEq, Repr

/-- Handler of `POST /api/auth/register` (server.js:143-177).  `hash` models
`bcrypt.hash(password, 10)`.  `sess0` is the session before the call. -/
def register (db : Db) (sess0 : Option Session) (hash : String → String)
    (email password name : Option String) : AuthResult :=
  if jsFalsy email || jsFalsy password || jsFalsy name then
    ⟨400, some "Missing required fields", none, db, sess0⟩
  else if (password.getD "").length < 6 then
    ⟨400, some "Password must be at least 6 characters", none, db, sess0⟩
  else
    let e := email.getD ""
    let p := password.getD ""
    let n := name.getD ""
    let existing := db.users.filter (fun u => u.email == e)
    if existing.length > 0 then
      ⟨400, some "Email already registered", none, db, sess0⟩
    else
      let newId := db.nextUserId
      let newUser : User :=
        { id := newId, email := e, password_hash := hash p, name := n, role := "user" }
      ⟨201, none, some { id := newId, email := e, name := n, role := "user" },
        { db with users := db.users ++ [newUser], nextUserId := newId + 1 },
        some { userId := some newId, userRole := some "user" }⟩

/-- Handler of `POST /api/auth/login` (server.js:179-212).  `compare`
models `bcrypt.compare(password, hash)`. -/
def login (db : Db) (sess0 : Option Session) (compare : String → String → Bool)
    (email password : Option String) : AuthResult :=
  if jsFalsy email || jsFalsy password then
    ⟨400, some "Email and password required", none, db, sess0⟩
  else
    match db.users.find? (fun u => u.email == email.getD "") with
    | none => ⟨401, some "Invalid email or password", none, db, sess0⟩
    | some user =>
      if !compare (password.getD "") user.password_hash then
        ⟨401, some "Invalid email or password", none, db, sess0⟩
      else
        ⟨200, none, some (pubUser user), db,
          some { userId := some user.id, userRole := some user.role }⟩

/-- Handler of `GET /api/auth/me` (server.js:223-242).  When the session
references a user id absent from the store, the session is destroyed
(`session` becomes `none`) and a 401 is returned. -/
def currentUser (db : Db) (sess : Session) : AuthResult :=
  match sess.userId with
  | none => ⟨401, some "Not authenticated", none, db, some sess⟩
  | some uid =>
    match db.users.find? (fun u => u.id == uid) with
    | none => ⟨401, some "User not found", none, db, none⟩
    | some user => ⟨200, none, some (pubUser user), db, some sess⟩

/-- Outcome of a guard middleware: either an error response cut the chain, or
the request passed through to the handler. -/
inductive GuardOutcome where
  | err (status : Nat) (msg : String)
  | pass
deriving DecidableEq, Repr

/-- The `requireAdmin` middleware (server.js:88-101): 401 without a session
user id; otherwise the role is re-loaded from the `users` table and 403 is
returned when the stored row is missing or its role is not `admin`. -/
def requireAdmin (db : Db) (sess : Session) : GuardOutcome :=
  match sess.userId with
  | none => .err 401 "Authentication required"
  | some uid =>
    match db.users.find? (fun u => u.id == uid) with
    | none => .err 403 "Admin access required"
    | some user =>
      if user.role ≠ "admin" then .err 403 "Admin access required"
      else .pass

/-- A MySQL error as seen by the bootstrap code: its `code` and
`sqlMessage`. -/
structure DbError where
  code : String
  sqlMessage : String
deriving DecidableEq, Repr

/-- Schema-level state of the store, restricted to what `initDb`
manipulates: which tables exist, whether `applications` has the `user_id`
column, and whether the `fk_user` constraint exists.  (`fk_job` is created
together with the table and never separately, so it needs no flag.) -/
structure Schema where
  usersTable : Bool
  jobsTable : Bool
  applicationsTable : Bool
  appsUserIdCol : Bool
  fkUser : Bool
deriving DecidableEq, Repr

/-- JavaScript `String.prototype.includes`: substring containment. -/
def jsIncludes (s sub : String) : Bool :=
  decide (sub.data <:+: s.data)

/-- The enumerated set of tolerated errors in `ensureFk` (db.js:62-69):
`ER_DUP_KEYNAME`, `ER_FK_DUP_NAME`, or a message containing
"already exists". -/
def tolerableFkError (e : DbError) : Bool :=
  e.code == "ER_DUP_KEYNAME" || e.code == "ER_FK_DUP_NAME" ||
    jsIncludes e.sqlMessage "already exists"

/-- `ALTER TABLE applications ADD CONSTRAINT fk_user ...`: MySQL rejects a
duplicate constraint name with `ER_FK_DUP_NAME`. -/
def alterAddFkUser (s : Schema) : Except DbError Schema :=
  if s.fkUser then
    .error { code := "ER_FK_DUP_NAME", sqlMessage := "Duplicate foreign key constraint name" }
  else
    .ok { s with fkUser := true }

/-- The `catch` clause of `ensureFk` (db.js:61-73): swallow a tolerated
duplicate error, rethrow anything else. -/
def fkCatch (s : Schema) (e : DbError) : Except DbError Schema :=
  if tolerableFkError e then .ok s else .error e

/-- `ensureFk` from db.js:58-74, specialised to the single call site
(`fk_user` on `applications`). -/
def ensureFk (s : Schema) : Except DbError Schema :=
  match alterAddFkUser s with
  | .ok s2 => .ok s2
  | .error e => fkCatch s e

/-- `ensureColumn('applications', 'user_id', ...)` from db.js:50-55: `SHOW
COLUMNS` then `ALTER TABLE ... ADD COLUMN` only when absent. -/
def ensureColumnUserId (s : Schema) : Except DbError Schema :=
  if s.appsUserIdCol then .ok s
  else .ok { s with appsUserIdCol := true }

/-- `CREATE TABLE IF NOT EXISTS users (...)`. -/
def createUsersTable (s : Schema) : Except DbError Schema :=
  .ok { s with usersTable := true }

/-- `CREATE TABLE IF NOT EXISTS jobs (...)`. -/
def createJobsTable (s : Schema) : Except DbError Schema :=
  .ok { s with jobsTable := true }

/-- `CREATE TABLE IF NOT EXISTS applications (...)`: the fresh table already
contains the `user_id` column (it is in the CREATE statement), but not the
`fk_user` constraint (only `fk_job` is). -/
def createApplicationsTable (s : Schema) : Except DbError Schema :=
  if s.applicationsTable then .ok s
  else .ok { s with applicationsTable := true, appsUserIdCol := true }

/-- `initDb` from db.js:24-99: create the three tables in dependency order,
then backfill the `user_id` column and the `fk_user` constraint.  Any error
escaping a step aborts the whole bootstrap (the `Except` chain), which
`start()` turns into process exit. -/
def initDb (s : Schema) : Except DbError Schema := do
  let s ← createUsersTable s
  let s ← createJobsTable s
  let s ← createApplicationsTable s
  let s ← ensureColumnUserId s
  ensureFk s

/-- The schema state after a successful bootstrap: all three tables, the
`user_id` column and the `fk_user` constraint exist. -/
def fullSchema : Schema :=
  { usersTable := true, jobsTable := true, applicationsTable := true,
    appsUserIdCol := true, fkUser := true }

/-- The schema state of a store never bootstrapped before. -/
def emptySchema : Schema :=
  { usersTable := false, jobsTable := false, applicationsTable := false,
    appsUserIdCol := false, fkUser := false }

/-! Concrete fixtures used to instantiate the theorems. -/

/-- A sample job with deadline timestamp 2000. -/
def jobEx : Job :=
  { id := 1, title := "Frontend Engineer", company := "Acme Corp",
    description := "Build UI components.", deadline := 2000 }

/-- A sample registered user. -/
def userEx : User :=
  { id := 7, email := "alice@x.com", password_hash := "secret1!",
    name := "Alice", role := "user" }

/-- The seeded admin user. -/
def adminEx : User :=
  { id := 1, email := "admin@jobboard.com", password_hash := "admin123!",
    name := "Admin User", role := "admin" }

/-- A sample database state. -/
def dbEx : Db :=
  { users := [adminEx, userEx], jobs := [jobEx], applications := [],
    nextUserId := 8, nextAppId := 1 }

/-- A sample uploaded resume file. -/
def fileEx : UploadedFile :=
  { path := "uploads/100-resume.pdf", filename := "100-resume.pdf" }

/-- A fully valid apply request from `userEx` for `jobEx`. -/
def reqOkEx : ApplyReq :=
  { paramId := "1", sessionUserId := some 7, name := some "Alice",
    email := some "alice@x.com", phone := some "123", coverLetter := some "hi",
    file := some fileEx }

/-- An apply request with a negative job id in the route parameter. -/
def reqNegEx : ApplyReq := { reqOkEx with paramId := "-5" }

/-- An apply request with a non-numeric job id. -/
def reqBadIdEx : ApplyReq := { reqOkEx with paramId := "abc" }

/-- An apply request with the `phone` field missing. -/
def reqNoPhoneEx : ApplyReq := { reqOkEx with phone := none }

/-- An apply request whose text fields are whitespace-only strings. -/
def reqBlankFieldsEx : ApplyReq :=
  { reqOkEx with
    name := some "   "
    email := some " "
    phone := some "  "
    coverLetter := some "\t " }

/-! Helper lemmas. -/

/-- Deleting a file's path removes it from the filesystem. -/
theorem path_not_mem_unlink (fs : List String) (f : UploadedFile) :
    f.path ∉ unlinkIfFile fs (some f) := by
  simp [unlinkIfFile]

/-- Case analysis of the apply handler's effect on the upload directory:
either the request succeeded (201, directory untouched), or no file was
received (directory untouched), or the received file was unlinked. -/
theorem applyHandler_fs_cases (db : Db) (now : Int) (req : ApplyReq)
    (insertFails : Bool) (fs0 : List String) :
    ((applyHandler db now req insertFails fs0).status = 201 ∧
      (applyHandler db now req insertFails fs0).fs = fs0) ∨
    (req.file = none ∧ (applyHandler db now req insertFails fs0).fs = fs0) ∨
    (applyHandler db now req insertFails fs0).fs = unlinkIfFile fs0 req.file := by
  unfold applyHandler
  split
  · right; right; rfl
  · split
    · right; right; rfl
    · split
      · right; right; rfl
      · split
        · right; right; rfl
        · split
          · right; right; rfl
          · split
            · right; right; rfl
            · split
              · rename_i hnone
                right; left; exact ⟨hnone, rfl⟩
              · split
                · right; right; rfl
                · left; exact ⟨rfl, rfl⟩

/-- Characters produced by the whitespace-collapsing replacement are never
whitespace: runs are replaced by a dash and other characters are kept
unchanged only when they are not whitespace. -/
theorem collapseWsGo_no_space (b : Bool) (cs : List Char) :
    ∀ c ∈ collapseWsGo b cs, jsIsSpace c = false := by
  induction cs generalizing b with
  | nil => intro c hc; simp [collapseWsGo] at hc
  | cons hd tl ih =>
    intro c hc
    simp only [collapseWsGo] at hc
    by_cases h : jsIsSpace hd = true
    · rw [if_pos h] at hc
      by_cases hb : b = true
      · rw [if_pos hb] at hc
        exact ih true c hc
      · rw [if_neg hb] at hc
        rcases List.mem_cons.mp hc with rfl | hc2
        · decide
        · exact ih true c hc2
    · rw [if_neg h] at hc
      rcases List.mem_cons.mp hc with rfl | hc2
      · exact Bool.not_eq_true _ ▸ h
      · exact ih false c hc2

/-- C1: every error response of the apply handler (any status other than
201) leaves no received upload behind: when a resume file was received, its
path is absent from the upload directory afterwards — whether the failure
was an invalid job id, a missing session, a missing job, a passed deadline,
missing text fields, or a failing database insert. -/
theorem apply_error_deletes_upload (db : Db) (now : Int) (req : ApplyReq)
    (insertFails : Bool) (fs0 : List String) (f : UploadedFile)
    (hfile : req.file = some f)
    (hfail : (applyHandler db now req insertFails fs0).status ≠ 201) :
    f.path ∉ (applyHandler db now req insertFails fs0).fs := by
  rcases applyHandler_fs_cases db now req insertFails fs0 with
    ⟨h201, _⟩ | ⟨hnone, _⟩ | hfs
  · exact absurd h201 hfail
  · rw [hfile] at hnone; cases hnone
  · rw [hfs, hfile]
    exact path_not_mem_unlink fs0 f

/-- Witness for C1: a request with a valid file but missing `phone` gets an
error response and the uploaded file is gone from the upload directory. -/
theorem apply_error_deletes_upload_witness :
    fileEx.path ∉ (applyHandler dbEx 1000 reqNoPhoneEx false [fileEx.path]).fs :=
  apply_error_deletes_upload dbEx 1000 reqNoPhoneEx false [fileEx.path] fileEx
    (by decide) (by decide)

/-- C2 counterexample: applying with job id `-5` (a negative integer) does
NOT fail with a 400 ValidationError as the claim states: `parseInt`
returns the truthy value `-5`, which passes the handler's well-formedness
guard, and the request instead fails with 404 "Job not found" (and no
Application row is inserted). -/
theorem apply_negative_id_is_404 :
    (applyHandler dbEx 1000 reqNegEx false [fileEx.path]).status = 404 ∧
    (applyHandler dbEx 1000 reqNegEx false [fileEx.path]).status ≠ 400 ∧
    (applyHandler dbEx 1000 reqNegEx false [fileEx.path]).error = some "Job not found" ∧
    (applyHandler dbEx 1000 reqNegEx false [fileEx.path]).db = dbEx := by
  refine ⟨rfl, by decide, rfl, rfl⟩

/-- C2 (amended): if the route parameter parses to no number (`NaN`) or to
`0`, the apply handler fails with 400 "Invalid job ID" and inserts nothing;
if it parses to a negative number, the well-formedness guard passes but —
as stored job ids are positive — the lookup fails, so the handler fails
with 404 "Job not found" and inserts nothing.  In no such case is an
Application row inserted. -/
theorem apply_invalid_id_spec (db : Db) (now : Int) (req : ApplyReq)
    (insertFails : Bool) (fs0 : List String) :
    ((parseIntJS req.paramId = none ∨ parseIntJS req.paramId = some 0) →
      (applyHandler db now req insertFails fs0).status = 400 ∧
      (applyHandler db now req insertFails fs0).error = some "Invalid job ID" ∧
      (applyHandler db now req insertFails fs0).db = db) ∧
    (∀ n : Int, parseIntJS req.paramId = some n → n < 0 →
      ∀ uid, req.sessionUserId = some uid →
      (∀ j ∈ db.jobs, 0 < j.id) →
      (applyHandler db now req insertFails fs0).status = 404 ∧
      (applyHandler db now req insertFails fs0).error = some "Job not found" ∧
      (applyHandler db now req insertFails fs0).db = db) := by
  constructor
  · rintro (h | h)
    · unfold applyHandler
      rw [h]
      exact ⟨rfl, rfl, rfl⟩
    · unfold applyHandler
      rw [h]
      simp only [if_pos rfl]
      exact ⟨rfl, rfl, rfl⟩
  · intro n hn hneg uid hsess hpos
    have hfind : db.jobs.find? (fun j => j.id == n) = none := by
      rw [List.find?_eq_none]
      intro j hj
      have hpj := hpos j hj
      simp only [beq_iff_eq]
      omega
    have hne : ¬ n = 0 := by omega
    unfold applyHandler
    rw [hn]
    simp only [if_neg hne, hsess, hfind]
    exact ⟨trivial, trivial, trivial⟩

/-- Witness for C2's amended theorem: a non-numeric id gives 400 and a
negative id gives 404, neither touching the database. -/
theorem apply_invalid_id_spec_witness :
    (applyHandler dbEx 1000 reqBadIdEx false [fileEx.path]).status = 400 ∧
    (applyHandler dbEx 1000 reqNegEx false [fileEx.path]).error = some "Job not found" :=
  ⟨((apply_invalid_id_spec dbEx 1000 reqBadIdEx false [fileEx.path]).1
      (Or.inl (by decide))).1,
   ((apply_invalid_id_spec dbEx 1000 reqNegEx false [fileEx.path]).2
      (-5) (by decide) (by decide) 7 (by decide) (by decide)).2.1⟩

/-- C9 counterexample: the stored filename is NOT the original name with
whitespace stripped (removed): for original name "a b.pdf" at timestamp
100 the code stores "100-a-b.pdf" (whitespace runs replaced by a dash),
not "100-ab.pdf". -/
theorem multerFilename_ne_stripped :
    multerFilename 100 "a b.pdf" = "100-a-b.pdf" ∧
    specStrippedFilename 100 "a b.pdf" = "100-ab.pdf" ∧
    multerFilename 100 "a b.pdf" ≠ specStrippedFilename 100 "a b.pdf" := by
  refine ⟨rfl, rfl, by decide⟩

/-- C9 (amended): the stored filename is the timestamp, a dash, then the
original name with every whitespace run replaced by a dash; hence it starts
with the timestamp prefix and the part coming from the original name
contains no whitespace character. -/
theorem multerFilename_spec (ts : Nat) (originalname : String) :
    (multerFilename ts originalname).data =
      (toString ts ++ "-").data ++ (jsCollapseWs originalname).data ∧
    ∀ c ∈ (jsCollapseWs originalname).data, jsIsSpace c = false := by
  constructor
  · rfl
  · intro c hc
    exact collapseWsGo_no_space false originalname.data c hc

/-- Witness for C9's amended theorem at a concrete name and timestamp. -/
theorem multerFilename_spec_witness :
    (multerFilename 100 "a b.pdf").data =
      (toString (100 : Nat) ++ "-").data ++ (jsCollapseWs "a b.pdf").data ∧
    jsIsSpace 'a' = false :=
  ⟨(multerFilename_spec 100 "a b.pdf").1,
   (multerFilename_spec 100 "a b.pdf").2 'a' (by decide)⟩

/-- C10: whitespace-only values for `name`, `email`, `phone` and
`coverLetter` pass the missing-field check (a nonempty string is truthy),
and the handler persists an Application whose text fields are all the empty
string after trimming — no empty-after-trim rejection exists on this
route. -/
theorem apply_blank_fields_accepted (db : Db) (now : Int) (req : ApplyReq)
    (fs0 : List String) (jid : Int) (uid : Nat) (job : Job) (f : UploadedFile)
    (hparse : parseIntJS req.paramId = some jid) (hjid : ¬ jid = 0)
    (hsess : req.sessionUserId = some uid)
    (hfind : db.jobs.find? (fun j => j.id == jid) = some job)
    (hdl : ¬ job.deadline < now)
    (hfile : req.file = some f)
    (hname : ∃ s, req.name = some s ∧ s ≠ "" ∧ jsTrim s = "")
    (hemail : ∃ s, req.email = some s ∧ s ≠ "" ∧ jsTrim s = "")
    (hphone : ∃ s, req.phone = some s ∧ s ≠ "" ∧ jsTrim s = "")
    (hcover : ∃ s, req.coverLetter = some s ∧ s ≠ "" ∧ jsTrim s = "") :
    (applyHandler db now req false fs0).status = 201 ∧
    (applyHandler db now req false fs0).db.applications =
      db.applications ++
        [{ id := db.nextAppId, job_id := jid, user_id := some uid,
           name := "", email := "", phone := "", cover_letter := "",
           resume_path := f.filename }] := by
  obtain ⟨sn, hn, hn0, hnt⟩ := hname
  obtain ⟨se, he, he0, het⟩ := hemail
  obtain ⟨sp, hp, hp0, hpt⟩ := hphone
  obtain ⟨sc, hc, hc0, hct⟩ := hcover
  unfold applyHandler
  rw [hparse]
  simp only [if_neg hjid, hsess, hfind, if_neg hdl, hn, he, hp, hc, hfile,
    jsFalsy, decide_eq_false hn0, decide_eq_false he0, decide_eq_false hp0,
    decide_eq_false hc0, Bool.or_self, Bool.or_false, if_neg (by decide : ¬ (false = true)),
    Option.getD_some, hnt, het, hpt, hct]
  exact ⟨trivial, trivial⟩

/-- Witness for C10: an application whose four text fields are only spaces
and tabs is accepted and stored with all-empty text fields. -/
theorem apply_blank_fields_accepted_witness :
    (applyHandler dbEx 1000 reqBlankFieldsEx false [fileEx.path]).status = 201 ∧
    (applyHandler dbEx 1000 reqBlankFieldsEx false [fileEx.path]).db.applications =
      dbEx.applications ++
        [{ id := dbEx.nextAppId, job_id := 1, user_id := some 7,
           name := "", email := "", phone := "", cover_letter := "",
           resume_path := fileEx.filename }] :=
  apply_blank_fields_accepted dbEx 1000 reqBlankFieldsEx [fileEx.path] 1 7 jobEx fileEx
    (by decide) (by decide) (by decide) (by decide) (by decide) (by decide)
    ⟨"   ", by decide, by decide, by decide⟩
    ⟨" ", by decide, by decide, by decide⟩
    ⟨"  ", by decide, by decide, by decide⟩
    ⟨"\t ", by decide, by decide, by decide⟩

/-- C3: Register fails with 400 when a field is missing or the password is
shorter than 6 characters, leaving the store unchanged; fails with 400
"Email already registered" when the email exists, leaving the store
unchanged (so when exactly one user with that email persisted before, still
exactly one persists); otherwise inserts exactly one new user with role
"user" (and the salted hash of the password) and establishes a session for
the new identity. -/
theorem register_spec (db : Db) (sess0 : Option Session) (hash : String → String)
    (email password name : Option String) :
    ((jsFalsy email || jsFalsy password || jsFalsy name) = true →
      (register db sess0 hash email password name).status = 400 ∧
      (register db sess0 hash email password name).error = some "Missing required fields" ∧
      (register db sess0 hash email password name).db = db) ∧
    ((jsFalsy email || jsFalsy password || jsFalsy name) = false →
      (password.getD "").length < 6 →
      (register db sess0 hash email password name).status = 400 ∧
      (register db sess0 hash email password name).error =
        some "Password must be at least 6 characters" ∧
      (register db sess0 hash email password name).db = db) ∧
    ((jsFalsy email || jsFalsy password || jsFalsy name) = false →
      ¬ (password.getD "").length < 6 →
      0 < (db.users.filter (fun u => u.email == email.getD "")).length →
      (register db sess0 hash email password name).status = 400 ∧
      (register db sess0 hash email password name).error =
        some "Email already registered" ∧
      (register db sess0 hash email password name).db = db ∧
      ((db.users.filter (fun u => u.email == email.getD "")).length = 1 →
        ((register db sess0 hash email password name).db.users.filter
          (fun u => u.email == email.getD "")).length = 1)) ∧
    ((jsFalsy email || jsFalsy password || jsFalsy name) = false →
      ¬ (password.getD "").length < 6 →
      (db.users.filter (fun u => u.email == email.getD "")).length = 0 →
      (register db sess0 hash email password name).status = 201 ∧
      (register db sess0 hash email password name).db.users =
        db.users ++
          [{ id := db.nextUserId, email := email.getD "",
             password_hash := hash (password.getD ""), name := name.getD "",
             role := "user" }] ∧
      (register db sess0 hash email password name).session =
        some { userId := some db.nextUserId, userRole := some "user" }) := by
  refine ⟨?_, ?_, ?_, ?_⟩
  · intro hmiss
    unfold register
    rw [if_pos hmiss]
    exact ⟨rfl, rfl, rfl⟩
  · intro hmiss hshort
    unfold register
    rw [if_neg (by simp [hmiss]), if_pos hshort]
    exact ⟨rfl, rfl, rfl⟩
  · intro hmiss hlong hdup
    unfold register
    rw [if_neg (by simp [hmiss]), if_neg hlong, if_pos hdup]
    refine ⟨rfl, rfl, rfl, ?_⟩
    intro h1
    exact h1
  · intro hmiss hlong hnew
    unfold register
    rw [if_neg (by simp [hmiss]), if_neg hlong, if_neg (by omega)]
    exact ⟨rfl, rfl, rfl⟩

/-- Witness for C3: registering a fresh email inserts one user with role
"user" and signs the new user in; registering an existing email is a 400
leaving the store unchanged. -/
theorem register_spec_witness :
    (register dbEx none (fun p => p ++ "!") (some "bob@x.com") (some "hunter2")
      (some "Bob")).status = 201 ∧
    (register dbEx none (fun p => p ++ "!") (some "alice@x.com") (some "hunter2")
      (some "Mallory")).error = some "Email already registered" :=
  ⟨((register_spec dbEx none (fun p => p ++ "!") (some "bob@x.com") (some "hunter2")
      (some "Bob")).2.2.2 (by decide) (by decide) (by decide)).1,
   ((register_spec dbEx none (fun p => p ++ "!") (some "alice@x.com") (some "hunter2")
      (some "Mallory")).2.2.1 (by decide) (by decide) (by decide)).2.1⟩

/-- C4: the two failing login shapes — unknown email, and known email with a
failing hash comparison — return identical responses (status 401 and the
same "Invalid email or password" message), so the payload does not
distinguish them; and every successful login returns exactly the public
projection of the stored user (a record with no password-hash field). -/
theorem login_spec (db : Db) (sess0 : Option Session)
    (compare : String → String → Bool) (e1 p1 e2 p2 : Option String)
    (h1 : (jsFalsy e1 || jsFalsy p1) = false)
    (h2 : (jsFalsy e2 || jsFalsy p2) = false)
    (hno : db.users.find? (fun u => u.email == e1.getD "") = none)
    (u : User)
    (hu : db.users.find? (fun x => x.email == e2.getD "") = some u)
    (hcmp : compare (p2.getD "") u.password_hash = false) :
    ((login db sess0 compare e1 p1).status = 401 ∧
     (login db sess0 compare e2 p2).status = 401 ∧
     (login db sess0 compare e1 p1).error = (login db sess0 compare e2 p2).error ∧
     (login db sess0 compare e1 p1).error = some "Invalid email or password") ∧
    (∀ (db2 : Db) (s2 : Option Session) (cmp2 : String → String → Bool)
       (em pw : Option String) (u2 : User),
       db2.users.find? (fun x => x.email == em.getD "") = some u2 →
       (login db2 s2 cmp2 em pw).status = 200 →
       (login db2 s2 cmp2 em pw).userPayload = some (pubUser u2)) := by
  constructor
  · unfold login
    rw [if_neg (by simp [h1]), if_neg (by simp [h2])]
    simp [hno, hu, hcmp]
  · intro db2 s2 cmp2 em pw u2 hu2 h200
    unfold login at h200 ⊢
    by_cases hf : (jsFalsy em || jsFalsy pw) = true
    · rw [if_pos hf] at h200
      cases h200
    · rw [if_neg hf] at h200 ⊢
      simp only [hu2] at h200 ⊢
      by_cases hc : cmp2 (pw.getD "") u2.password_hash = true
      · simp [hc]
      · rw [Bool.not_eq_true] at hc
        simp [hc] at h200

/-- Witness for C4: with one stored user, logging in with an unknown email
and logging in with the right email but wrong password yield the same
status and message. -/
theorem login_spec_witness :
    (login dbEx none (fun p h => (p ++ "!") == h) (some "nobody@x.com")
      (some "whatever")).status = 401 ∧
    (login dbEx none (fun p h => (p ++ "!") == h) (some "alice@x.com")
      (some "wrong")).status = 401 ∧
    (login dbEx none (fun p h => (p ++ "!") == h) (some "nobody@x.com")
      (some "whatever")).error =
      (login dbEx none (fun p h => (p ++ "!") == h) (some "alice@x.com")
        (some "wrong")).error :=
  ⟨((login_spec dbEx none (fun p h => (p ++ "!") == h) (some "nobody@x.com")
      (some "whatever") (some "alice@x.com") (some "wrong") (by decide) (by decide)
      (by decide) userEx (by decide) (by decide)).1).1,
   ((login_spec dbEx none (fun p h => (p ++ "!") == h) (some "nobody@x.com")
      (some "whatever") (some "alice@x.com") (some "wrong") (by decide) (by decide)
      (by decide) userEx (by decide) (by decide)).1).2.1,
   ((login_spec dbEx none (fun p h => (p ++ "!") == h) (some "nobody@x.com")
      (some "whatever") (some "alice@x.com") (some "wrong") (by decide) (by decide)
      (by decide) userEx (by decide) (by decide)).1).2.2.1⟩

/-- C5: `requireAdmin` fails 401 without a session user id; with one, the
caller's role is re-read from the `users` table and the request fails 403
whenever the stored row is absent or its role is not "admin", passing only
on a stored "admin" role; and the outcome is invariant under the role
recorded in the session payload, which is never consulted. -/
theorem requireAdmin_spec (db : Db) (sess : Session) :
    (sess.userId = none → requireAdmin db sess = .err 401 "Authentication required") ∧
    (∀ uid, sess.userId = some uid →
      (db.users.find? (fun x => x.id == uid) = none →
        requireAdmin db sess = .err 403 "Admin access required") ∧
      (∀ u, db.users.find? (fun x => x.id == uid) = some u →
        (u.role ≠ "admin" → requireAdmin db sess = .err 403 "Admin access required") ∧
        (u.role = "admin" → requireAdmin db sess = .pass))) ∧
    (∀ r1 r2 : Option String,
      requireAdmin db { userId := sess.userId, userRole := r1 } =
      requireAdmin db { userId := sess.userId, userRole := r2 }) := by
  refine ⟨?_, ?_, ?_⟩
  · intro hnone
    unfold requireAdmin
    rw [hnone]
  · intro uid huid
    refine ⟨?_, ?_⟩
    · intro hmiss
      unfold requireAdmin
      rw [huid]
      simp [hmiss]
    · intro u hu
      refine ⟨?_, ?_⟩
      · intro hrole
        unfold requireAdmin
        rw [huid]
        simp only [hu]
        rw [if_pos hrole]
      · intro hrole
        unfold requireAdmin
        rw [huid]
        simp only [hu]
        rw [if_neg (fun h => h hrole)]
  · intro r1 r2
    rfl

/-- Witness for C5: a session whose payload claims the "admin" role is still
rejected with 403 when the stored role of that user is "user", and the
seeded admin passes. -/
theorem requireAdmin_spec_witness :
    requireAdmin dbEx { userId := some 7, userRole := some "admin" } =
      .err 403 "Admin access required" ∧
    requireAdmin dbEx { userId := some 1, userRole := none } = .pass :=
  ⟨(((requireAdmin_spec dbEx { userId := some 7, userRole := some "admin" }).2.1
      7 (by decide)).2 userEx (by decide)).1 (by decide),
   (((requireAdmin_spec dbEx { userId := some 1, userRole := none }).2.1
      1 (by decide)).2 adminEx (by decide)).2 (by decide)⟩

/-- C7: with an authenticated session and an existing job, a deadline
strictly earlier than the current time yields 400 "Application deadline has
passed" and persists nothing; otherwise, with all text fields and the
resume file present and a succeeding insert, the handler returns 201 and
appends exactly one Application row referencing that job and the
authenticated user. -/
theorem apply_deadline_spec (db : Db) (now : Int) (req : ApplyReq)
    (insertFails : Bool) (fs0 : List String) (jid : Int) (uid : Nat) (job : Job)
    (hparse : parseIntJS req.paramId = some jid) (hjid : ¬ jid = 0)
    (hsess : req.sessionUserId = some uid)
    (hfind : db.jobs.find? (fun j => j.id == jid) = some job) :
    (job.deadline < now →
      (applyHandler db now req insertFails fs0).status = 400 ∧
      (applyHandler db now req insertFails fs0).error =
        some "Application deadline has passed" ∧
      (applyHandler db now req insertFails fs0).db = db) ∧
    (¬ job.deadline < now →
      jsFalsy req.name = false → jsFalsy req.email = false →
      jsFalsy req.phone = false → jsFalsy req.coverLetter = false →
      ∀ f, req.file = some f → insertFails = false →
      (applyHandler db now req insertFails fs0).status = 201 ∧
      (applyHandler db now req insertFails fs0).db.applications =
        db.applications ++
          [{ id := db.nextAppId, job_id := jid, user_id := some uid,
             name := jsTrim ((req.name).getD "")
             email := jsTrim ((req.email).getD "")
             phone := jsTrim ((req.phone).getD "")
             cover_letter := jsTrim ((req.coverLetter).getD "")
             resume_path := f.filename }]) := by
  constructor
  · intro hpast
    unfold applyHandler
    rw [hparse]
    simp only [if_neg hjid, hsess, hfind, if_pos hpast]
    exact ⟨trivial, trivial, trivial⟩
  · intro hfut hn he hp hc f hf hins
    subst hins
    unfold applyHandler
    rw [hparse]
    simp only [if_neg hjid, hsess, hfind, if_neg hfut, hn, he, hp, hc, hf,
      Bool.or_self, Bool.or_false, if_neg (by decide : ¬ (false = true))]
    exact ⟨trivial, trivial⟩

/-- Witness for C7: the sample job's deadline (2000) has passed at time
3000, so applying fails 400; at time 1000 the same request succeeds with
201. -/
theorem apply_deadline_spec_witness :
    (applyHandler dbEx 3000 reqOkEx false [fileEx.path]).status = 400 ∧
    (applyHandler dbEx 1000 reqOkEx false [fileEx.path]).status = 201 :=
  ⟨((apply_deadline_spec dbEx 3000 reqOkEx false [fileEx.path] 1 7 jobEx
      (by decide) (by decide) (by decide) (by decide)).1 (by decide)).1,
   ((apply_deadline_spec dbEx 1000 reqOkEx false [fileEx.path] 1 7 jobEx
      (by decide) (by decide) (by decide) (by decide)).2 (by decide) (by decide)
      (by decide) (by decide) (by decide) fileEx (by decide) rfl).1⟩

/-- C8: CurrentUser returns 401 "Not authenticated" without a session user
id (session kept); 401 "User not found" with the stale session destroyed
when the referenced user no longer exists; and otherwise the public fields
of the user — the payload type has no password-hash field, and the hash is
never read. -/
theorem currentUser_spec (db : Db) (sess : Session) :
    (sess.userId = none →
      currentUser db sess =
        { status := 401, error := some "Not authenticated", userPayload := none,
          db := db, session := some sess }) ∧
    (∀ uid, sess.userId = some uid →
      (db.users.find? (fun u => u.id == uid) = none →
        currentUser db sess =
          { status := 401, error := some "User not found", userPayload := none,
            db := db, session := none }) ∧
      (∀ u, db.users.find? (fun x => x.id == uid) = some u →
        currentUser db sess =
          { status := 200, error := none, userPayload := some (pubUser u),
            db := db, session := some sess })) := by
  constructor
  · intro hnone
    unfold currentUser
    rw [hnone]
  · intro uid huid
    constructor
    · intro hmiss
      unfold currentUser
      rw [huid]
      simp [hmiss]
    · intro u hu
      unfold currentUser
      rw [huid]
      simp [hu]

/-- Witness for C8: a session referencing the deleted user id 99 is
destroyed and gets 401; the stored user 7 gets their public fields. -/
theorem currentUser_spec_witness :
    currentUser dbEx { userId := some 99, userRole := some "user" } =
      { status := 401, error := some "User not found", userPayload := none,
        db := dbEx, session := none } ∧
    currentUser dbEx { userId := some 7, userRole := some "user" } =
      { status := 200, error := none, userPayload := some (pubUser userEx),
        db := dbEx, session := some { userId := some 7, userRole := some "user" } } :=
  ⟨((currentUser_spec dbEx { userId := some 99, userRole := some "user" }).2
      99 (by decide)).1 (by decide),
   ((currentUser_spec dbEx { userId := some 7, userRole := some "user" }).2
      7 (by decide)).2 userEx (by decide)⟩

/-- Bootstrap always produces the full schema: each `CREATE TABLE IF NOT
EXISTS` is a no-op on an existing table, the column backfill checks `SHOW
COLUMNS` first, and the duplicate-constraint error raised when `fk_user`
already exists is in the tolerated set. -/
theorem initDb_run (s : Schema) : initDb s = .ok fullSchema := by
  rcases s with ⟨u, j, a, c, f⟩
  cases a <;> cases c <;> cases f <;> rfl

/-- C6: a second bootstrap run over the schema a successful first run
produced succeeds and leaves the schema unchanged (the enumerated
"duplicate constraint/column" conditions are treated as success); and the
catch clause of the constraint step rethrows — so bootstrap aborts on —
every error outside that enumerated set. -/
theorem initDb_idempotent (s s2 : Schema) (hrun : initDb s = .ok s2) :
    initDb s2 = .ok s2 ∧
    ∀ (s3 : Schema) (e : DbError), tolerableFkError e = false →
      fkCatch s3 e = .error e := by
  constructor
  · have h1 := initDb_run s
    rw [hrun] at h1
    have h2 : s2 = fullSchema := by
      injection h1
    rw [h2]
    exact initDb_run fullSchema
  · intro s3 e he
    unfold fkCatch
    rw [he]
    simp

/-- Witness for C6: bootstrapping a fresh store and then bootstrapping
again succeeds with the schema unchanged, while a deadlock error in the
constraint step would propagate. -/
theorem initDb_idempotent_witness :
    initDb fullSchema = .ok fullSchema ∧
    fkCatch fullSchema { code := "ER_LOCK_DEADLOCK", sqlMessage := "Deadlock found" } =
      .error { code := "ER_LOCK_DEADLOCK", sqlMessage := "Deadlock found" } :=
  ⟨(initDb_idempotent emptySchema fullSchema rfl).1,
   (initDb_idempotent emptySchema fullSchema rfl).2 fullSchema
     { code := "ER_LOCK_DEADLOCK", sqlMessage := "Deadlock found" } (by decide)⟩

end JobApp
